import Mathlib

/-!
Shallow embedding of the stellarCode repository (Soroban smart contracts):
src/blockchain/payment.rs (auction contract) and
src/blockchain/payementverification.rs (royalty contract).

Storage is modelled as an explicit state record; every entry point is a
function from an environment (ledger timestamp, set of signed principals,
PRNG output) and a pre-state to a result paired with a post-state. A result
of Except.error models a panicking assertion, a failed unwrap, or a failed
require_auth: the paired post-state is the storage content at the moment of
the abort, which lets theorems speak about what was or was not mutated
before a failure. Principals, asset identifiers and hashes are modelled as
natural numbers; u64 values as Nat; i128 values as Int.

The modules types.rs and auctions/ of the repository are not under src/
(only their callers are), so the data shapes and the variant behavior
contract are modelled from the spec where noted.
-/

namespace Auction

/-- Modelled from the spec: the types module of the repository is not under
src/. AuctionSettings per spec section 3: seller principal, property asset
identifier, starting price, auction duration, sealed-phase duration
(0 = no sealed phase), discount percentage and discount frequency. -/
structure AuctionSettings where
  seller : Nat
  property : Nat
  starting_price : Int
  duration : Nat
  sealed_phase_time : Nat
  discount_percent : Nat
  discount_frequency : Nat
  deriving Repr, DecidableEq

/-- Modelled from the spec: a plain bid record (bidder, amount, timestamp),
spec section 3. -/
structure Bid where
  bidder : Nat
  amount : Int
  timestamp : Nat
  deriving Repr, DecidableEq

/-- Modelled from the spec: a sealed commitment (bidder, commitment hash),
spec section 3. -/
structure SealedBid where
  bidder : Nat
  commitment : Nat
  deriving Repr, DecidableEq

/-- Modelled from the spec: the types module is not under src/. AuctionData
per spec section 3 and the constructor call in start: settings, creation
timestamp, accepted plain bids, outstanding sealed commitments, identifier. -/
structure AuctionData where
  settings : AuctionSettings
  start_time : Nat
  bids : List Bid
  sealed_bids : List SealedBid
  id : Nat
  deriving Repr, DecidableEq

/-- Constructor mirroring the AuctionData::new call site in start. -/
def AuctionData.new (settings : AuctionSettings) (start_time : Nat)
    (bids : List Bid) (sealed_bids : List SealedBid) (id : Nat) : AuctionData :=
  ⟨settings, start_time, bids, sealed_bids, id⟩

/-- AuctionPhase enumeration, spec section 3. -/
inductive AuctionPhase where
  | Sealed
  | Running
  | Ended
  deriving Repr, DecidableEq

/-- AdminData singleton, fields per the struct literal in the contract. -/
structure AdminData where
  admin : Nat
  anti_snipe_time : Nat
  commission_rate : Int
  extendable_auctions : Bool
  deriving Repr, DecidableEq

/-- Abort reasons of the embedded execution: a failed require_auth, a failed
unwrap of a missing storage value, a failed assertion. -/
inductive Err where
  | AuthFailed
  | MissingValue
  | AssertFailed
  deriving Repr, DecidableEq

/-- Contract storage: the AdminData singleton, one AuctionData record per
key DataKey.AuctionData(id), one phase record per AuctionRegion, keyed by
the auction identifier. -/
structure ContractState where
  adminData : Option AdminData
  auctions : Nat → Option AuctionData
  phases : Nat → Option AuctionPhase

/-- Transaction environment: current ledger timestamp, the set of
principals that signed the transaction, and the u64 the PRNG fills in. -/
structure Env where
  timestamp : Nat
  auths : List Nat
  prngId : Nat

/-- require_auth gate: succeeds iff the principal signed the transaction. -/
def authed (env : Env) (a : Nat) : Bool :=
  env.auths.contains a

/-- storage::set for DataKey.AuctionData(id). -/
def setAuction (st : ContractState) (id : Nat) (d : AuctionData) : ContractState :=
  { st with auctions := fun k => if k = id then some d else st.auctions k }

/-- StateMachine.set_state on region AuctionRegion.Dispatcher(id). -/
def setPhase (st : ContractState) (id : Nat) (p : AuctionPhase) : ContractState :=
  { st with phases := fun k => if k = id then some p else st.phases k }

/-- Modelled from the spec: the auctions module (variant implementations
behind the dispatcher) is not under src/. The shared behavior contract of
the two variants, spec section 4.4: start, place_bid, place_sealed_bid and
resolve, each reading and writing contract storage. -/
structure Variant where
  start : Env → ContractState → Nat → AuctionData → Except Err Unit × ContractState
  place_bid : Env → ContractState → Nat → Nat → Int → Option Nat → Except Err Unit × ContractState
  place_sealed_bid : Env → ContractState → Nat → Nat → Nat → Except Err Unit × ContractState
  resolve : Env → ContractState → Nat → Except Err Unit × ContractState

/-- Modelled from the spec: the dispatcher macro expansion is not under
src/. Per spec section 4.4, the boolean selection key (true exactly when
discount_percent > 0 and discount_frequency > 0) selects the Discount
variant, otherwise the Ascending variant. -/
def dispatcher (asc dutch : Variant) (isDiscount : Bool) : Variant :=
  if isDiscount then dutch else asc

/-- The variant selection predicate, the exact boolean expression passed to
the dispatcher macro at each of the four call sites in the contract. -/
def discountSelected (s : AuctionSettings) : Bool :=
  decide (0 < s.discount_percent) && decide (0 < s.discount_frequency)

/-- Modelled from the spec: is_sealed_bid_auction lives in the auctions
module, not under src/. Per spec section 3, a sealed phase exists exactly
when sealed_phase_time > 0. -/
def is_sealed_bid_auction (d : AuctionData) : Bool :=
  decide (0 < d.settings.sealed_phase_time)

/-- get_auction: storage::get_or_else with the identity continuation; it
returns the stored option and never aborts. -/
def get_auction (_env : Env) (st : ContractState) (auction_id : Nat) :
    Except Err (Option AuctionData) × ContractState :=
  (Except.ok (st.auctions auction_id), st)

/-- resolve entry point: unwrap the stored record, dispatch on the
selection predicate over its settings, delegate. -/
def resolve (asc dutch : Variant) (env : Env) (st : ContractState) (auction_id : Nat) :
    Except Err Unit × ContractState :=
  match st.auctions auction_id with
  | none => (Except.error Err.MissingValue, st)
  | some auction_data =>
      (dispatcher asc dutch (discountSelected auction_data.settings)).resolve env st auction_id

/-- place_bid entry point: require_auth of the buyer, unwrap the stored
record, dispatch; for a sealed-bid auction whose sealed phase has expired
(start_time + sealed_phase_time less than or equal to the ledger
timestamp) set the phase record to Running, then delegate the bid. -/
def place_bid (asc dutch : Variant) (env : Env) (st : ContractState)
    (auction_id buyer : Nat) (amount : Int) (salt : Option Nat) :
    Except Err Unit × ContractState :=
  if authed env buyer then
    match st.auctions auction_id with
    | none => (Except.error Err.MissingValue, st)
    | some auction_data =>
        let d := dispatcher asc dutch (discountSelected auction_data.settings)
        let st1 :=
          if is_sealed_bid_auction auction_data then
            if auction_data.start_time + auction_data.settings.sealed_phase_time ≤ env.timestamp then
              setPhase st auction_id AuctionPhase.Running
            else st
          else st
        d.place_bid env st1 auction_id buyer amount salt
  else (Except.error Err.AuthFailed, st)

/-- place_sealed_bid entry point: require_auth of the buyer, unwrap the
stored record, dispatch, delegate. -/
def place_sealed_bid (asc dutch : Variant) (env : Env) (st : ContractState)
    (auction_id buyer sealed_amount : Nat) :
    Except Err Unit × ContractState :=
  if authed env buyer then
    match st.auctions auction_id with
    | none => (Except.error Err.MissingValue, st)
    | some auction_data =>
        (dispatcher asc dutch (discountSelected auction_data.settings)).place_sealed_bid
          env st auction_id buyer sealed_amount
  else (Except.error Err.AuthFailed, st)

/-- extend entry point, embedded exactly as the source reads: unwrap the
AdminData singleton; if extendable_auctions holds, return false; otherwise
unwrap the auction record, require_auth of its seller, add the extra
duration to settings.duration, store the record back, return true. -/
def extend (env : Env) (st : ContractState) (auction_id duration : Nat) :
    Except Err Bool × ContractState :=
  match st.adminData with
  | none => (Except.error Err.MissingValue, st)
  | some adminData =>
      if adminData.extendable_auctions then
        (Except.ok false, st)
      else
        match st.auctions auction_id with
        | none => (Except.error Err.MissingValue, st)
        | some auction_data =>
            if authed env auction_data.settings.seller then
              let auction_data :=
                { auction_data with
                    settings :=
                      { auction_data.settings with
                          duration := auction_data.settings.duration + duration } }
              (Except.ok true, setAuction st auction_id auction_data)
            else (Except.error Err.AuthFailed, st)

/-- start entry point: assert that the AdminData singleton exists,
require_auth of the seller named in the settings, draw the identifier from
the PRNG, build the record with the current ledger timestamp and empty bid
vectors, dispatch on the selection predicate, delegate, return the id. -/
def start (asc dutch : Variant) (env : Env) (st : ContractState)
    (auction_settings : AuctionSettings) : Except Err Nat × ContractState :=
  if (st.adminData).isSome then
    if authed env auction_settings.seller then
      let id := env.prngId
      let auction_data := AuctionData.new auction_settings env.timestamp [] [] id
      match (dispatcher asc dutch (discountSelected auction_data.settings)).start
          env st id auction_data with
      | (Except.ok _, st1) => (Except.ok id, st1)
      | (Except.error e, st1) => (Except.error e, st1)
    else (Except.error Err.AuthFailed, st)
  else (Except.error Err.AssertFailed, st)

/-- initialize entry point: assert that no AdminData singleton exists, then
store AdminData with anti_snipe_time.min(60) and
commission_rate.max(0).min(100). -/
def initializeOp (_env : Env) (st : ContractState) (admin : Nat)
    (anti_snipe_time : Nat) (commission_rate : Int) (extendable_auctions : Bool) :
    Except Err Unit × ContractState :=
  if (st.adminData).isSome then
    (Except.error Err.AssertFailed, st)
  else
    (Except.ok (),
      { st with
          adminData := some
            { admin := admin
              anti_snipe_time := min anti_snipe_time 60
              commission_rate := min (max commission_rate 0) 100
              extendable_auctions := extendable_auctions } })

end Auction

namespace Royalty

/-- Modelled from the spec: the types module of the royalty contract is not
under src/. License terms, fields per their uses in
payementverification.rs: licensor principal, property token, lien token,
recurring period, grace period, compensation tag. -/
structure Terms where
  licensor : Nat
  property : Nat
  lien : Nat
  recur_period : Nat
  grace_period : Nat
  compensation : Nat
  deriving Repr, DecidableEq

/-- LicenseStatus per its use at the License::new call site. -/
inductive LicenseStatus where
  | Paid
  deriving Repr, DecidableEq

/-- Modelled from the spec: the agreement module is not under src/. License
record, one field per argument of the License::new call in add_property. -/
structure License where
  terms : Terms
  licensee : Nat
  created_time : Nat
  recur_time : Nat
  grace_time : Nat
  status : LicenseStatus
  flagged : Bool
  deriving Repr, DecidableEq

/-- Constructor mirroring the License::new call site in add_property. -/
def License.new (terms : Terms) (licensee : Nat) (created_time recur_time grace_time : Nat)
    (status : LicenseStatus) (flagged : Bool) : License :=
  ⟨terms, licensee, created_time, recur_time, grace_time, status, flagged⟩

/-- Abort reasons of the embedded royalty execution. -/
inductive RErr where
  | AuthFailed
  | AssertFailed
  | TransferFailed
  deriving Repr, DecidableEq

/-- Royalty contract storage plus the external token service: one License
record per DataKey.License(property), and the balance of each token for
each owner. -/
structure RoyaltyState where
  licenses : Nat → Option License
  balances : Nat → Nat → Int

/-- Royalty transaction environment: ledger timestamp, signed principals,
address of the contract instance itself. -/
structure REnv where
  timestamp : Nat
  auths : List Nat
  contract_address : Nat

/-- require_auth gate of the royalty contract. -/
def rauthed (env : REnv) (a : Nat) : Bool :=
  env.auths.contains a

/-- External token transfer: moves the amount between the balances of the
given token, aborting when the source balance is insufficient. -/
def transfer (st : RoyaltyState) (token from_ to_ : Nat) (amount : Int) :
    Except RErr Unit × RoyaltyState :=
  if st.balances token from_ < amount then (Except.error RErr.TransferFailed, st)
  else
    (Except.ok (),
      { st with
          balances := fun t o =>
            if t = token then
              if o = from_ then st.balances t o - amount
              else if o = to_ then st.balances t o + amount
              else st.balances t o
            else st.balances t o })

/-- storage::set for DataKey.License(property). -/
def setLicense (st : RoyaltyState) (property : Nat) (l : License) : RoyaltyState :=
  { st with licenses := fun k => if k = property then some l else st.licenses k }

/-- add_property entry point, embedded exactly as the source reads:
require_auth of the licensor; assert recur_period > grace_period or
recur_period = 0; assert no License is stored under the property; assert
the licensor holds exactly one unit of the property token; transfer one
unit of the lien token from the licensor to the contract; build the
License record and store it under the property. -/
def add_property (env : REnv) (st : RoyaltyState) (terms : Terms) :
    Except RErr Unit × RoyaltyState :=
  if rauthed env terms.licensor then
    let property := terms.property
    if decide (terms.grace_period < terms.recur_period) || decide (terms.recur_period = 0) then
      if (st.licenses property).isNone then
        if st.balances property terms.licensor = 1 then
          match transfer st terms.lien terms.licensor env.contract_address 1 with
          | (Except.error e, st1) => (Except.error e, st1)
          | (Except.ok _, st1) =>
              let licensee := terms.licensor
              let created_time := env.timestamp
              let recur_time :=
                if 0 < terms.recur_period then created_time + terms.recur_period else 0
              let grace_time := created_time + terms.grace_period
              let license :=
                License.new terms licensee created_time recur_time grace_time
                  LicenseStatus.Paid false
              (Except.ok (), setLicense st1 property license)
        else (Except.error RErr.AssertFailed, st)
      else (Except.error RErr.AssertFailed, st)
    else (Except.error RErr.AssertFailed, st)
  else (Except.error RErr.AuthFailed, st)

end Royalty

namespace Auction

/-- A variant whose four operations succeed without touching storage; used
to instantiate theorems that hold for every variant implementation. -/
def passV : Variant :=
  { start := fun _ st _ _ => (Except.ok (), st)
    place_bid := fun _ st _ _ _ _ => (Except.ok (), st)
    place_sealed_bid := fun _ st _ _ _ => (Except.ok (), st)
    resolve := fun _ st _ => (Except.ok (), st) }

/-- Modelled from the spec: a variant whose start persists the new record
under its identifier (spec section 2 control flow: each entry point
persists the updated record); the other operations are as in passV. -/
def storeV : Variant :=
  { passV with start := fun _ st id d => (Except.ok (), setAuction st id d) }

/-- The empty contract storage. -/
def emptyState : ContractState :=
  ⟨none, fun _ => none, fun _ => none⟩

/-- Sample settings: seller 5, property 9, starting price 10, duration 100,
sealed phase 20, no discount (Ascending variant). -/
def sampleSettings : AuctionSettings :=
  ⟨5, 9, 10, 100, 20, 0, 0⟩

/-- Sample auction record with identifier 1, created at time 30. -/
def sampleData : AuctionData :=
  AuctionData.new sampleSettings 30 [] [] 1

/-- Admin configuration with the extension flag disabled. -/
def adminOff : AdminData :=
  ⟨9, 10, 5, false⟩

/-- Admin configuration with the extension flag enabled. -/
def adminOn : AdminData :=
  ⟨9, 10, 5, true⟩

/-- State holding adminOff and the sample auction under identifier 1. -/
def stFlagOff : ContractState :=
  ⟨some adminOff, fun k => if k = 1 then some sampleData else none, fun _ => none⟩

/-- State holding adminOn and the sample auction under identifier 1. -/
def stFlagOn : ContractState :=
  ⟨some adminOn, fun k => if k = 1 then some sampleData else none, fun _ => none⟩

/-- Environment at ledger time 100 where principal 5 signed and the PRNG
yields 7. -/
def envAuth5 : Env :=
  ⟨100, [5], 7⟩

/-- Environment at ledger time 100 where nobody signed. -/
def envNoAuth : Env :=
  ⟨100, [], 7⟩

/-- A live auction whose identifier is 7, stored under key 7. -/
def dataId7 : AuctionData :=
  AuctionData.new sampleSettings 30 [] [] 7

/-- State holding adminOn and the live auction with identifier 7; the PRNG
of envAuth5 yields exactly 7. -/
def stLive7 : ContractState :=
  ⟨some adminOn, fun k => if k = 7 then some dataId7 else none, fun _ => none⟩

end Auction

namespace Royalty

/-- Royalty environment: ledger time 50, licensor 3 signed, the contract
instance lives at address 99. -/
def renvAuth3 : REnv :=
  ⟨50, [3], 99⟩

/-- Terms violating the ordering constraint: recur_period 5 is neither
greater than grace_period 10 nor zero. -/
def violTerms : Terms :=
  ⟨3, 11, 12, 5, 10, 0⟩

/-- Terms satisfying the ordering constraint: recur_period 20 exceeds
grace_period 10. -/
def okTerms : Terms :=
  ⟨3, 11, 12, 20, 10, 0⟩

/-- Royalty storage with no license and licensor 3 holding one unit of the
property token 11 and one unit of the lien token 12. -/
def rstate : RoyaltyState :=
  ⟨fun _ => none,
    fun t o =>
      if t = 11 && o = 3 then 1 else if t = 12 && o = 3 then 1 else 0⟩

end Royalty

namespace Auction

/-- Claim C9: for every auction id, get_auction never fails: its result is
Except.ok carrying the stored auction record when one exists under that id
and the empty option when none does, and storage is left untouched. -/
theorem get_auction_total (env : Env) (st : ContractState) (auction_id : Nat) :
    (get_auction env st auction_id).1 = Except.ok (st.auctions auction_id) ∧
    (get_auction env st auction_id).2 = st :=
  ⟨rfl, rfl⟩

/-- Claim C10: a first successful call of the init entry point returns ok
and stores the admin principal and the extension flag unchanged, the
anti-snipe window clamped to the minimum of the input and 60, and the
commission rate clamped into the interval from 0 to 100. -/
theorem initialize_clamps_stored_admin (env : Env) (st : ContractState)
    (a t : Nat) (r : Int) (x : Bool) (h : st.adminData = none) :
    (initializeOp env st a t r x).1 = Except.ok () ∧
    (initializeOp env st a t r x).2.adminData =
      some ⟨a, min t 60, min (max r 0) 100, x⟩ := by
  simp [initializeOp, h]

/-- Witness for claim C10 at a concrete input: anti-snipe 200 is clamped
to 60 and commission -3 to 0, while admin 9 and the flag pass through. -/
theorem initialize_clamps_stored_admin_witness :
    (initializeOp envAuth5 emptyState 9 200 (-3) true).1 = Except.ok () ∧
    (initializeOp envAuth5 emptyState 9 200 (-3) true).2.adminData =
      some ⟨9, min 200 60, min (max (-3) 0) 100, true⟩ :=
  initialize_clamps_stored_admin envAuth5 emptyState 9 200 (-3) true rfl

/-- Claim C4: after a first call of the init entry point on a state with no
admin record, a second call fails with the assertion abort, leaves storage
exactly as the first call left it, and in particular the stored AdminData
is the clamped image of the first call's arguments, untouched by the
second call's arguments. -/
theorem initialize_second_call_rejected (env1 env2 : Env) (st : ContractState)
    (a1 t1 : Nat) (r1 : Int) (x1 : Bool) (a2 t2 : Nat) (r2 : Int) (x2 : Bool)
    (h : st.adminData = none) :
    (initializeOp env2 (initializeOp env1 st a1 t1 r1 x1).2 a2 t2 r2 x2).1 =
      Except.error Err.AssertFailed ∧
    (initializeOp env2 (initializeOp env1 st a1 t1 r1 x1).2 a2 t2 r2 x2).2 =
      (initializeOp env1 st a1 t1 r1 x1).2 ∧
    (initializeOp env2 (initializeOp env1 st a1 t1 r1 x1).2 a2 t2 r2 x2).2.adminData =
      some ⟨a1, min t1 60, min (max r1 0) 100, x1⟩ := by
  simp [initializeOp, h]

/-- Witness for claim C4 at a concrete input: the second call with entirely
different arguments fails and the stored record keeps the first call's
clamped arguments. -/
theorem initialize_second_call_rejected_witness :
    (initializeOp envNoAuth (initializeOp envAuth5 emptyState 9 200 (-3) true).2 8 1 50 false).1 =
      Except.error Err.AssertFailed ∧
    (initializeOp envNoAuth (initializeOp envAuth5 emptyState 9 200 (-3) true).2 8 1 50 false).2 =
      (initializeOp envAuth5 emptyState 9 200 (-3) true).2 ∧
    (initializeOp envNoAuth (initializeOp envAuth5 emptyState 9 200 (-3) true).2 8 1 50 false).2.adminData =
      some ⟨9, min 200 60, min (max (-3) 0) 100, true⟩ :=
  initialize_second_call_rejected envAuth5 envNoAuth emptyState 9 200 (-3) true 8 1 50 false rfl

/-- Claim C1, the code as written: extend reads the stored extension flag
and returns false exactly when the flag is ENABLED; with the flag DISABLED
and the seller authenticated it succeeds, returns true and adds the extra
duration (100 becomes 105). This is the opposite of the claimed gating:
the source drops the negation on the flag test. -/
theorem extend_flag_check_inverted :
    adminOff.extendable_auctions = false ∧
    (extend envAuth5 stFlagOff 1 5).1 = Except.ok true ∧
    ((extend envAuth5 stFlagOff 1 5).2.auctions 1).map (fun d => d.settings.duration) =
      some 105 ∧
    adminOn.extendable_auctions = true ∧
    authed envAuth5 sampleSettings.seller = true ∧
    extend envAuth5 stFlagOn 1 5 = (Except.ok false, stFlagOn) :=
  ⟨rfl, rfl, rfl, rfl, rfl, rfl⟩

end Auction

namespace Auction

/-- Claim C6: for every variant pair and settings, start aborts when no
admin configuration record exists; with one present it aborts when the
seller named in the settings has not signed; and whenever it returns ok
the returned value is the fresh identifier drawn from the PRNG. -/
theorem start_admin_auth_id (asc dutch : Variant) (env : Env) (st : ContractState)
    (s : AuctionSettings) :
    (st.adminData = none → start asc dutch env st s = (Except.error Err.AssertFailed, st)) ∧
    (st.adminData.isSome = true → authed env s.seller = false →
      start asc dutch env st s = (Except.error Err.AuthFailed, st)) ∧
    (∀ n, (start asc dutch env st s).1 = Except.ok n → n = env.prngId) := by
  refine ⟨fun h => by simp [start, h], fun h1 h2 => by simp [start, h1, h2], fun n hn => ?_⟩
  unfold start at hn
  split at hn
  · split at hn
    · simp only [Except.ok.injEq] at hn
      split at hn
      · next u st1 heq =>
          simp only at hn
          exact (Except.ok.inj hn).symm
      · next e st1 heq => simp at hn
    · simp at hn
  · simp at hn

/-- Witness for claim C6 at concrete inputs: the empty state has no admin
record and start aborts there; with an admin record but no signature it
aborts with the authentication failure; and a successful run on stLive7
returns exactly the PRNG value 7 of envAuth5. -/
theorem start_admin_auth_id_witness :
    start passV passV envAuth5 emptyState sampleSettings =
      (Except.error Err.AssertFailed, emptyState) ∧
    start passV passV envNoAuth stFlagOn sampleSettings =
      (Except.error Err.AuthFailed, stFlagOn) ∧
    (7 : Nat) = envAuth5.prngId :=
  ⟨(start_admin_auth_id passV passV envAuth5 emptyState sampleSettings).1 rfl,
   (start_admin_auth_id passV passV envNoAuth stFlagOn sampleSettings).2.1 rfl rfl,
   (start_admin_auth_id storeV storeV envAuth5 stLive7 sampleSettings).2.2 7 rfl⟩

end Auction

namespace Auction

/-- Claim C7: an operation that requires authentication of a principal who
has not signed aborts with storage exactly as before the call: place_bid
and place_sealed_bid abort on an unsigned buyer before even reading the
auction record, and start on an unsigned seller aborts leaving the state
untouched (with the authentication failure whenever the admin existence
assertion passes first). -/
theorem auth_gate_no_mutation (asc dutch : Variant) (env : Env) (st : ContractState)
    (auction_id buyer : Nat) (amount : Int) (salt : Option Nat) (sealed_amount : Nat)
    (s : AuctionSettings) :
    (authed env buyer = false →
      place_bid asc dutch env st auction_id buyer amount salt =
        (Except.error Err.AuthFailed, st)) ∧
    (authed env buyer = false →
      place_sealed_bid asc dutch env st auction_id buyer sealed_amount =
        (Except.error Err.AuthFailed, st)) ∧
    (authed env s.seller = false →
      (start asc dutch env st s).2 = st ∧
      (∃ e, (start asc dutch env st s).1 = Except.error e)) := by
  refine ⟨fun h => by simp [place_bid, h], fun h => by simp [place_sealed_bid, h],
    fun h => ?_⟩
  by_cases h1 : st.adminData.isSome = true
  · simp [start, h1, h]
  · simp [start, h1]

/-- Witness for claim C7 at concrete inputs: in envNoAuth nobody signed, so
place_bid, place_sealed_bid and start all abort on stFlagOn without
mutating it. -/
theorem auth_gate_no_mutation_witness :
    place_bid passV passV envNoAuth stFlagOn 1 5 50 none =
      (Except.error Err.AuthFailed, stFlagOn) ∧
    place_sealed_bid passV passV envNoAuth stFlagOn 1 5 77 =
      (Except.error Err.AuthFailed, stFlagOn) ∧
    (start passV passV envNoAuth stFlagOn sampleSettings).2 = stFlagOn ∧
    (∃ e, (start passV passV envNoAuth stFlagOn sampleSettings).1 = Except.error e) :=
  ⟨(auth_gate_no_mutation passV passV envNoAuth stFlagOn 1 5 50 none 77 sampleSettings).1 rfl,
   (auth_gate_no_mutation passV passV envNoAuth stFlagOn 1 5 50 none 77 sampleSettings).2.1 rfl,
   (auth_gate_no_mutation passV passV envNoAuth stFlagOn 1 5 50 none 77 sampleSettings).2.2 rfl⟩

end Auction

namespace Auction

/-- Claim C2 counterexample: in stLive7 a live auction with identifier 7 is
stored, the PRNG of envAuth5 yields 7, and start succeeds returning 7: the
newly assigned identifier equals the identifier of the existing live
auction, so no-collision fails. -/
theorem start_id_collides_with_live_auction :
    (stLive7.auctions 7).map AuctionData.id = some 7 ∧
    (start storeV storeV envAuth5 stLive7 sampleSettings).1 = Except.ok 7 :=
  ⟨rfl, rfl⟩

/-- Claim C2 (amended): the identifier is drawn from the environment PRNG
and returned on success; start performs no collision check, so with the
record-persisting variant it succeeds on every state holding an admin
record and an authenticated seller, overwriting whatever record was stored
under that identifier. -/
theorem start_no_collision_check (env : Env) (st : ContractState) (s : AuctionSettings)
    (h1 : st.adminData.isSome = true) (h2 : authed env s.seller = true) :
    start storeV storeV env st s =
      (Except.ok env.prngId,
        setAuction st env.prngId (AuctionData.new s env.timestamp [] [] env.prngId)) := by
  simp [start, storeV, passV, dispatcher, h1, h2]

/-- Witness for the amended claim C2 at a concrete input: on stLive7, which
already stores a live auction under the PRNG value 7, start succeeds and
overwrites that record. -/
theorem start_no_collision_check_witness :
    start storeV storeV envAuth5 stLive7 sampleSettings =
      (Except.ok envAuth5.prngId,
        setAuction stLive7 envAuth5.prngId
          (AuctionData.new sampleSettings envAuth5.timestamp [] [] envAuth5.prngId)) :=
  start_no_collision_check envAuth5 stLive7 sampleSettings rfl rfl

/-- Claim C3: for a sealed-bid auction (positive sealed_phase_time), when
the creation time plus sealed_phase_time is less than or equal to the
current ledger timestamp, place_bid first sets the phase record of the
auction region to Running and only then delegates the bid to the selected
variant: the delegate runs on the updated state, whose phase record for
the auction already reads Running. -/
theorem place_bid_advances_sealed_phase_first (asc dutch : Variant) (env : Env)
    (st : ContractState) (auction_id buyer : Nat) (amount : Int) (salt : Option Nat)
    (d : AuctionData) (hauth : authed env buyer = true)
    (hd : st.auctions auction_id = some d)
    (hsealed : is_sealed_bid_auction d = true)
    (hexp : d.start_time + d.settings.sealed_phase_time ≤ env.timestamp) :
    (setPhase st auction_id AuctionPhase.Running).phases auction_id =
      some AuctionPhase.Running ∧
    place_bid asc dutch env st auction_id buyer amount salt =
      (dispatcher asc dutch (discountSelected d.settings)).place_bid env
        (setPhase st auction_id AuctionPhase.Running) auction_id buyer amount salt := by
  refine ⟨by simp [setPhase], ?_⟩
  simp [place_bid, hauth, hd, hsealed, hexp]

/-- Witness for claim C3 at a concrete input: a bid on the sealed sample
auction (creation 30, sealed phase 20) exactly at or after the boundary
(ledger time 100) runs the delegate on the Running-phase state. -/
theorem place_bid_advances_sealed_phase_first_witness :
    (setPhase stFlagOff 1 AuctionPhase.Running).phases 1 = some AuctionPhase.Running ∧
    place_bid passV passV envAuth5 stFlagOff 1 5 50 none =
      (dispatcher passV passV (discountSelected sampleData.settings)).place_bid envAuth5
        (setPhase stFlagOff 1 AuctionPhase.Running) 1 5 50 none :=
  place_bid_advances_sealed_phase_first passV passV envAuth5 stFlagOff 1 5 50 none
    sampleData rfl rfl rfl (by decide)

end Auction

namespace Auction

/-- Claim C5: the Discount (Dutch) variant is selected exactly when
discount_percent > 0 and discount_frequency > 0 of the freshly loaded
settings, recomputed on every public operation and read from no persisted
tag: under the predicate resolve, place_bid and place_sealed_bid on a
stored record, and start on argument settings, behave as if only the dutch
variant were installed, and otherwise as if only the asc variant were. -/
theorem variant_selection_fresh (asc dutch : Variant) (env : Env) (st : ContractState)
    (auction_id buyer : Nat) (amount : Int) (salt : Option Nat) (sealed_amount : Nat)
    (s : AuctionSettings) (d : AuctionData) (hd : st.auctions auction_id = some d) :
    (discountSelected d.settings = true ↔
      0 < d.settings.discount_percent ∧ 0 < d.settings.discount_frequency) ∧
    (0 < d.settings.discount_percent ∧ 0 < d.settings.discount_frequency →
      resolve asc dutch env st auction_id = resolve dutch dutch env st auction_id ∧
      place_bid asc dutch env st auction_id buyer amount salt =
        place_bid dutch dutch env st auction_id buyer amount salt ∧
      place_sealed_bid asc dutch env st auction_id buyer sealed_amount =
        place_sealed_bid dutch dutch env st auction_id buyer sealed_amount) ∧
    (¬(0 < d.settings.discount_percent ∧ 0 < d.settings.discount_frequency) →
      resolve asc dutch env st auction_id = resolve asc asc env st auction_id ∧
      place_bid asc dutch env st auction_id buyer amount salt =
        place_bid asc asc env st auction_id buyer amount salt ∧
      place_sealed_bid asc dutch env st auction_id buyer sealed_amount =
        place_sealed_bid asc asc env st auction_id buyer sealed_amount) ∧
    (0 < s.discount_percent ∧ 0 < s.discount_frequency →
      start asc dutch env st s = start dutch dutch env st s) ∧
    (¬(0 < s.discount_percent ∧ 0 < s.discount_frequency) →
      start asc dutch env st s = start asc asc env st s) := by
  have hiff : ∀ t : AuctionSettings,
      discountSelected t = true ↔ 0 < t.discount_percent ∧ 0 < t.discount_frequency := by
    intro t
    simp [discountSelected]
  have hfalse : ∀ t : AuctionSettings,
      ¬(0 < t.discount_percent ∧ 0 < t.discount_frequency) → discountSelected t = false := by
    intro t ht
    cases hds : discountSelected t with
    | false => rfl
    | true => exact absurd ((hiff t).mp hds) ht
  refine ⟨hiff d.settings, fun h => ?_, fun h => ?_, fun h => ?_, fun h => ?_⟩
  · have hsel := (hiff d.settings).mpr h
    refine ⟨by simp [resolve, hd, hsel, dispatcher], ?_, ?_⟩
    · by_cases hb : authed env buyer = true <;>
        simp [place_bid, hb, hd, hsel, dispatcher]
    · by_cases hb : authed env buyer = true <;>
        simp [place_sealed_bid, hb, hd, hsel, dispatcher]
  · have hsel := hfalse d.settings h
    refine ⟨by simp [resolve, hd, hsel, dispatcher], ?_, ?_⟩
    · by_cases hb : authed env buyer = true <;>
        simp [place_bid, hb, hd, hsel, dispatcher]
    · by_cases hb : authed env buyer = true <;>
        simp [place_sealed_bid, hb, hd, hsel, dispatcher]
  · have hsel := (hiff s).mpr h
    by_cases h1 : st.adminData.isSome = true <;>
      by_cases h2 : authed env s.seller = true <;>
        simp [start, h1, h2, hsel, dispatcher, AuctionData.new]
  · have hsel := hfalse s h
    by_cases h1 : st.adminData.isSome = true <;>
      by_cases h2 : authed env s.seller = true <;>
        simp [start, h1, h2, hsel, dispatcher, AuctionData.new]

/-- Witness for claim C5 at a concrete input: the stored sample auction has
both discount fields zero, so resolve with two different installed
variants behaves as with the ascending one alone. -/
theorem variant_selection_fresh_witness :
    resolve passV storeV envAuth5 stFlagOff 1 = resolve passV passV envAuth5 stFlagOff 1 :=
  ((variant_selection_fresh passV storeV envAuth5 stFlagOff 1 5 50 none 77
      sampleSettings sampleData rfl).2.2.1 (by decide)).1

end Auction

namespace Royalty

/-- Claim C8: add_property succeeds only when recur_period > grace_period
or recur_period = 0; a call whose terms violate that ordering constraint
aborts and leaves storage exactly as before, in particular no license
record is stored under the property. -/
theorem add_property_ordering_gate (env : REnv) (st : RoyaltyState) (terms : Terms) :
    ((add_property env st terms).1 = Except.ok () →
      (terms.grace_period < terms.recur_period ∨ terms.recur_period = 0)) ∧
    (¬(terms.grace_period < terms.recur_period ∨ terms.recur_period = 0) →
      (add_property env st terms).2 = st ∧
      (∃ e, (add_property env st terms).1 = Except.error e) ∧
      (st.licenses terms.property = none →
        ((add_property env st terms).2).licenses terms.property = none)) := by
  constructor
  · intro hok
    by_cases hc : (decide (terms.grace_period < terms.recur_period) ||
        decide (terms.recur_period = 0)) = true
    · simpa using hc
    · by_cases ha : rauthed env terms.licensor = true
      · rw [Bool.not_eq_true] at hc
        simp [add_property, ha, hc] at hok
      · rw [Bool.not_eq_true] at ha
        simp [add_property, ha] at hok
  · intro hviol
    have hc : (decide (terms.grace_period < terms.recur_period) ||
        decide (terms.recur_period = 0)) = false := by
      push_neg at hviol
      simp [hviol.1, hviol.2]
    by_cases ha : rauthed env terms.licensor = true
    · refine ⟨by simp [add_property, ha, hc], ⟨RErr.AssertFailed, by simp [add_property, ha, hc]⟩,
        fun hnone => ?_⟩
      simp [add_property, ha, hc, hnone]
    · rw [Bool.not_eq_true] at ha
      refine ⟨by simp [add_property, ha], ⟨RErr.AuthFailed, by simp [add_property, ha]⟩,
        fun hnone => ?_⟩
      simp [add_property, ha, hnone]

/-- Witness for claim C8 at concrete inputs: the succeeding call with
okTerms (recur 20 > grace 10) shows the ok direction is reachable, and the
call with violTerms (recur 5, grace 10) aborts leaving the empty license
store untouched. -/
theorem add_property_ordering_gate_witness :
    (okTerms.grace_period < okTerms.recur_period ∨ okTerms.recur_period = 0) ∧
    ((add_property renvAuth3 rstate violTerms).2 = rstate ∧
      (∃ e, (add_property renvAuth3 rstate violTerms).1 = Except.error e) ∧
      (rstate.licenses violTerms.property = none →
        ((add_property renvAuth3 rstate violTerms).2).licenses violTerms.property = none)) :=
  ⟨(add_property_ordering_gate renvAuth3 rstate okTerms).1 rfl,
   (add_property_ordering_gate renvAuth3 rstate violTerms).2 (by decide)⟩

end Royalty
